import Mathlib

/-!
Verification of the Orca SEO agent's inbound-event dispatch and
streaming-session lifecycle (src/lambda_handler.py and src/main.py),
as a shallow embedding in Lean 4.

External collaborators (OpenAI completion endpoint, orca SDK session
transport, pydantic serialization, Mangum/FastAPI HTTP layer, boto3
queue client, environment variables) are abstracted as oracle
parameters bundled in a `World`; the repository's own control flow is
translated function by function.
-/

namespace Agent

/-- JSON-like Python values, the payloads of inbound Lambda events. -/
inductive JValue where
  | null
  | bool (b : Bool)
  | num (n : Int)
  | str (s : String)
  | arr (xs : List JValue)
  | obj (fields : List (String × JValue))

/-- Python dict lookup on a string key (`d.get(k)` / `k in d` combined):
first binding wins. -/
def jLookup (d : List (String × JValue)) (k : String) : Option JValue :=
  match d with
  | [] => none
  | (k', v) :: rest => if k' = k then some v else jLookup rest k

/-- Python exception values relevant to the modeled code. -/
inductive PyErr where
  | typeError
  | attributeError
  | keyError
  | indexError
  | valueError (msg : String)
  | other (msg : String)
deriving DecidableEq, Repr

/-- Python `len(v)`: defined for lists, strings and dicts, `TypeError`
otherwise. -/
def pyLen : JValue → Except PyErr Nat
  | .arr xs => .ok xs.length
  | .str s => .ok s.length
  | .obj fs => .ok fs.length
  | _ => .error .typeError

/-- Python `v[0]`: list/str index, dict integer-key lookup (our dicts have
string keys, so a dict raises `KeyError`), `TypeError` otherwise. -/
def pyIndexZero : JValue → Except PyErr JValue
  | .arr [] => .error .indexError
  | .arr (x :: _) => .ok x
  | .str s =>
    match s.data with
    | [] => .error .indexError
    | c :: _ => .ok (.str (String.mk [c]))
  | .obj _ => .error .keyError
  | _ => .error .typeError

/-- Python `v.get(k)`: only dicts have `.get`; anything else raises
`AttributeError`. -/
def pyGet (v : JValue) (k : String) : Except PyErr (Option JValue) :=
  match v with
  | .obj fs => .ok (jLookup fs k)
  | _ => .error .attributeError

/-- Python `v[k]` with a string key: dict lookup raising `KeyError` when
absent, `TypeError` on non-dicts. -/
def pyGetItemStr (v : JValue) (k : String) : Except PyErr JValue :=
  match v with
  | .obj fs =>
    match jLookup fs k with
    | some x => .ok x
    | none => .error .keyError
  | _ => .error .typeError

/-- Python `for x in v`: lists yield elements, strings yield one-character
strings, dicts yield their keys; other values raise `TypeError`. -/
def jIter : JValue → Except PyErr (List JValue)
  | .arr xs => .ok xs
  | .str s => .ok (s.data.map fun c => .str (String.mk [c]))
  | .obj fs => .ok (fs.map fun p => .str p.1)
  | _ => .error .typeError

/-- Python `v == s` where `s` is a string literal and `v` an optional
value (result of `.get`): true exactly when `v` is that string. -/
def isStrEq (v : Option JValue) (s : String) : Bool :=
  match v with
  | some (.str t) => t = s
  | _ => false

/-- Python `a or b` where `a` is an optional string and `b` a string:
falls back to `b` when `a` is `None` or empty. -/
def pyOrStr (a : Option String) (b : String) : String :=
  match a with
  | some s => if s = "" then b else s
  | none => b

/-- Python `a or b` on two optional strings (`None` and `""` are falsy). -/
def pyOrOpt (a b : Option String) : Option String :=
  match a with
  | some s => if s = "" then b else some s
  | none => b

/-- Python truthiness of an optional string. -/
def truthyOpt : Option String → Bool
  | some s => s ≠ ""
  | none => false

/-- The request envelope (`orca.ChatMessage`). Fields the modeled core
consults: `message` (user text, optional), `model` (optional model
override), `response_uuid` (caller-supplied correlation identifier),
`variables` (ordered per-request key/value overrides). The remaining
envelope fields (thread, message and channel identifiers, callback URL)
are never consulted by the modeled control flow and are omitted. -/
structure ChatMessage where
  message : Option String
  model : Option String
  response_uuid : String
  /-- The Python field is named `variables`, a keyword in Lean 4. -/
  vars : List (String × String)
deriving DecidableEq, Repr

/-- The single `openai_client.chat.completions.create(...)` request built
by `_stream_completion` in src/main.py. `messages` is the list of
(role, content) pairs; the fixed `temperature=0.7` float argument is not
modeled (no claim concerns it). -/
structure CompletionRequest where
  model : String
  messages : List (String × String)
  stream : Bool
deriving DecidableEq, Repr

/-- One streamed chunk: `chunk.choices[0].delta.content`, which the
OpenAI client delivers as an optional string. -/
structure Chunk where
  content : Option String
deriving DecidableEq, Repr

/-- Behavior of one streaming completion call, as observed by the
consumer: either every chunk arrives and the stream ends normally, or
some prefix of chunks arrives and the next `await` raises. -/
inductive StreamOutcome where
  | success (chunks : List Chunk)
  | midFail (chunks : List Chunk) (e : PyErr)
deriving DecidableEq, Repr

/-- Calls made on Orca streaming sessions, in program order.
`begin` is `orca.begin(data)` (session open), `stream` is
`session.stream(delta)` (append a fragment), `error` is
`session.error(msg, exception=cause)`, `close` is `session.close()`. -/
inductive SessionOp where
  | begin
  | stream (s : String)
  | error (msg : String) (cause : Option PyErr)
  | close
deriving DecidableEq, Repr

/-- The Mangum/FastAPI HTTP layer's response to a non-SQS, non-cron
event, treated as opaque. -/
structure MangumResp where
  body : String
deriving DecidableEq, Repr

/-- Oracle bundle for all external collaborators and process-wide
configuration consulted by src/main.py and src/lambda_handler.py.
  * `envApiKey`  — `os.getenv("OPENAI_API_KEY")`.
  * `defaultModel` — `DEFAULT_MODEL = os.getenv("OPENAI_MODEL", "gpt-4o-mini")`.
  * `getVar` — the orca SDK call `get_variable_value(variables, "OPENAI_API_KEY")`.
  * `complete` — behavior of the OpenAI streaming call for a given request
    (an exception while creating the stream, or a `StreamOutcome`).
  * `serialize` — pydantic `data.model_dump_json()`.
  * `parse` — `json.loads(body)` followed by `ChatMessage(**body)` validation.
  * `mangumResult` — what `mangum_handler(event, context)` returns (or raises). -/
structure World where
  envApiKey : Option String
  defaultModel : String
  getVar : List (String × String) → Option String
  complete : CompletionRequest → Except PyErr StreamOutcome
  serialize : ChatMessage → String
  parse : JValue → Except PyErr ChatMessage
  mangumResult : Except PyErr MangumResp

/-- The persona prompt `SEO_SYSTEM_PROMPT` from src/seo_agent.py. Only
the first line of the fixed string constant is reproduced; no modeled
behavior inspects its contents, so the elided remainder is immaterial
to every theorem below. -/
def SEO_SYSTEM_PROMPT : String :=
  "You are an expert SEO consultant with over 10 years of experience in search engine optimization."

/-- Message of the `ValueError` raised when no API key is available
(src/main.py line 48). -/
def OPENAI_KEY_ERR : String := "OPENAI_API_KEY not found in environment or variables"

/-- Message passed to `session.error` inside `_stream_completion`
(src/main.py line 75). -/
def STREAM_ERR : String := "An error occurred during streaming"

/-- Message passed to `session.error` inside `process_message`
(src/main.py line 99). -/
def PROCESS_ERR : String := "An error occurred while generating the response."

/-- `delta = chunk.choices[0].delta.content or ""` (src/main.py line 63). -/
def deltaOf (c : Chunk) : String := pyOrStr c.content ""

/-- The `async for chunk in stream` body of `_stream_completion`
(src/main.py lines 62-69): compute `delta`, skip it when empty
(`if not delta: continue`), otherwise `session.stream(delta)`.
The `full_response` accumulator of the source is a write-only local
(never read after the loop) and is not modeled. -/
def streamLoop : List Chunk → List SessionOp
  | [] => []
  | c :: cs =>
    if deltaOf c = "" then streamLoop cs
    else .stream (deltaOf c) :: streamLoop cs

/-- The session calls `_stream_completion` makes, the completion request
it issued (if it got that far), and the exception it re-raises (if any). -/
structure StreamRun where
  request : Option CompletionRequest
  ops : List SessionOp
  raised : Option PyErr
deriving DecidableEq, Repr

/-- `_stream_completion(messages, model, data)` from src/main.py
(lines 41-77): resolve the API key (`get_variable_value(...) or
os.getenv(...)`), raising `ValueError` when falsy; issue the streaming
completion request (which may itself raise); open the session with
`orca.begin(data)`; forward non-empty deltas in arrival order; `close`
on normal exhaustion; on a mid-stream exception, `error` then `close`
then re-raise. -/
def _stream_completion (w : World) (messages : List (String × String)) (model : String)
    (data : ChatMessage) : StreamRun :=
  let api_key := pyOrOpt (w.getVar data.vars) w.envApiKey
  if truthyOpt api_key = false then
    { request := none, ops := [], raised := some (.valueError OPENAI_KEY_ERR) }
  else
    let req : CompletionRequest := { model := model, messages := messages, stream := true }
    match w.complete req with
    | .error e => { request := some req, ops := [], raised := some e }
    | .ok (.success chunks) =>
      { request := some req
        ops := [.begin] ++ streamLoop chunks ++ [.close]
        raised := none }
    | .ok (.midFail chunks e) =>
      { request := some req
        ops := [.begin] ++ streamLoop chunks ++ [.error STREAM_ERR (some e), .close]
        raised := some e }

/-- The observable outcome of one `process_message` invocation: the
completion request made (if any) and the session calls, in order.
`process_message` has no `raised` component: it catches every
exception (src/main.py line 95) and returns normally. -/
structure ProcRun where
  request : Option CompletionRequest
  ops : List SessionOp
deriving DecidableEq, Repr

/-- `process_message(data)` from src/main.py (lines 80-102): build the
two-entry message list (persona system prompt, then `data.message or ""`
as the user turn), resolve `model = data.model or DEFAULT_MODEL`, run
`_stream_completion`; when that raises, catch the exception, open a new
session with `orca.begin(data)`, mark it errored with the generic
message and the caught cause, and close it in the `finally` block. -/
def process_message (w : World) (data : ChatMessage) : ProcRun :=
  let messages : List (String × String) :=
    [("system", SEO_SYSTEM_PROMPT), ("user", pyOrStr data.message "")]
  let model := pyOrStr data.model w.defaultModel
  let run := _stream_completion w messages model data
  match run.raised with
  | none => { request := run.request, ops := run.ops }
  | some e =>
    { request := run.request
      ops := run.ops ++ [.begin, .error PROCESS_ERR (some e), .close] }

/-- Externally visible effects of one `send_message` HTTP request:
either one SQS publish (`boto3.client("sqs").send_message`) or one
inline `process_message` run. -/
inductive HttpEffect where
  | publishSqs (queueUrl : String) (body : String)
  | runProcess (run : ProcRun)
deriving DecidableEq, Repr

/-- The JSON acknowledgment returned by `send_message`. -/
structure SendResp where
  status : String
  response_uuid : String
deriving DecidableEq, Repr

/-- The inline branch of `send_message`: run the processor to completion
and acknowledge with status "ok" (src/lambda_handler.py lines 53-54). -/
def sendInline (w : World) (data : ChatMessage) : List HttpEffect × SendResp :=
  ([.runProcess (process_message w data)],
   { status := "ok", response_uuid := data.response_uuid })

/-- `send_message(data)` from src/lambda_handler.py (lines 35-54):
read `SQS_QUEUE_URL`; when truthy (present and non-empty), publish the
serialized message to that queue and acknowledge with status "queued";
otherwise await `process_message(data)` inline and acknowledge with
status "ok". Both acknowledgments carry `data.response_uuid` verbatim. -/
def send_message (queueUrl : Option String) (w : World) (data : ChatMessage) :
    List HttpEffect × SendResp :=
  match queueUrl with
  | some u =>
    if u = "" then sendInline w data
    else ([.publishSqs u (w.serialize data)],
          { status := "queued", response_uuid := data.response_uuid })
  | none => sendInline w data

/-- Externally visible effects of one `handler` invocation:
`procRecord r o` is one iteration of the SQS batch loop over record `r`
(`o` is the exception that was caught and logged for it, if any);
`callMangum` is the delegation `mangum_handler(event, context)`. -/
inductive RouteEffect where
  | procRecord (record : JValue) (caught : Option PyErr)
  | callMangum

/-- Structured value returned by `handler`: the fixed acknowledgment
dict with key "statusCode" and value 200, or whatever the Mangum HTTP
layer returned. -/
inductive HandlerResult where
  | statusCode200
  | httpResp (r : MangumResp)

/-- The `try` body of the SQS batch loop (src/lambda_handler.py lines
78-81) for one record: `record["body"]`, then `json.loads` +
`ChatMessage(**body)` (the `parse` oracle), then
`asyncio.run(process_message(data))`. Returns the exception the
`except` clause catches, if any; `process_message` itself never raises
(it catches every exception), so a successfully parsed record always
yields `none`. -/
def sqsRecordStep (w : World) (record : JValue) : Option PyErr :=
  match pyGetItemStr record "body" with
  | .error e => some e
  | .ok body =>
    match w.parse body with
    | .error e => some e
    | .ok data =>
      let _run := process_message w data
      none

/-- `for record in event["Records"]` (src/lambda_handler.py lines
77-83): every record is visited in order; a failure on one record is
caught and logged and iteration continues. -/
def sqsLoop (w : World) : List JValue → List RouteEffect
  | [] => []
  | r :: rs => .procRecord r (sqsRecordStep w r) :: sqsLoop w rs

/-- The tail of `handler` after the SQS check (src/lambda_handler.py
lines 86-92): `event.get("source") == "aws.events"` returns the fixed
acknowledgment with no further work; everything else is forwarded to
`mangum_handler(event, context)`. -/
def cronOrHttp (w : World) (event : List (String × JValue)) :
    List RouteEffect × Except PyErr HandlerResult :=
  if isStrEq (jLookup event "source") "aws.events" then
    ([], .ok .statusCode200)
  else
    match w.mangumResult with
    | .ok r => ([.callMangum], .ok (.httpResp r))
    | .error e => ([.callMangum], .error e)

/-- `handler(event, context)` from src/lambda_handler.py (lines 60-92).
`if "Records" in event and len(event["Records"]) > 0:` then
`first = event["Records"][0]`, `if first.get("eventSource") == "aws:sqs":`
run the batch loop and return the fixed acknowledgment; otherwise fall
through to the cron check and finally to Mangum. Each Python
subexpression is modeled with its exception behavior (`len`, indexing
and `.get` raise on ill-typed operands), and `handler` contains no
`try`/`except` of its own outside the per-record loop body, so those
exceptions propagate (`Except.error`). The event-loop setup and logging
at the top of the function are effect-free for our purposes and are not
modeled. -/
def handler (w : World) (event : List (String × JValue)) :
    List RouteEffect × Except PyErr HandlerResult :=
  match jLookup event "Records" with
  | some recs =>
    match pyLen recs with
    | .error e => ([], .error e)
    | .ok n =>
      if 0 < n then
        match pyIndexZero recs with
        | .error e => ([], .error e)
        | .ok first =>
          match pyGet first "eventSource" with
          | .error e => ([], .error e)
          | .ok tag =>
            if isStrEq tag "aws:sqs" then
              match jIter recs with
              | .error e => ([], .error e)
              | .ok records => (sqsLoop w records, .ok .statusCode200)
            else
              cronOrHttp w event
      else cronOrHttp w event
  | none => cronOrHttp w event

/-- The Queued-Batch condition as the spec states it: the envelope has a
non-empty records collection whose first record's delivery-source tag is
the queue origin "aws:sqs". -/
def isSqsBatch (event : List (String × JValue)) : Bool :=
  match jLookup event "Records" with
  | some (.arr (.obj fs :: _)) => isStrEq (jLookup fs "eventSource") "aws:sqs"
  | _ => false

/-- The Scheduled condition as the spec states it: the envelope's source
tag is the time-triggered origin "aws.events". -/
def isScheduled (event : List (String × JValue)) : Bool :=
  isStrEq (jLookup event "source") "aws.events"

/-- Well-shapedness of the "Records" entry of an envelope: absent, an
empty collection, or a list whose first element is a dict. On exactly
these envelopes the classification code of `handler` inspects the entry
without raising. -/
def recordsOk : Option JValue → Bool
  | none => true
  | some (.arr []) => true
  | some (.arr (.obj _ :: _)) => true
  | some (.arr (_ :: _)) => false
  | some (.str s) => s = ""
  | some (.obj fs) => fs.isEmpty
  | some _ => false

/-- Helper: is a session call the terminal `close`? -/
def isClose : SessionOp → Bool
  | .close => true
  | _ => false

/-- Helper: number of `close` calls in a session trace. -/
def closeCount (ops : List SessionOp) : Nat := (ops.filter isClose).length

/-- A concrete oracle bundle used by witnesses and counterexamples:
an API key in the environment, an empty successful stream, and a parse
oracle that rejects everything. Individual theorems override fields. -/
def baseWorld : World where
  envApiKey := some "k"
  defaultModel := "gpt-4o-mini"
  getVar := fun _ => none
  complete := fun _ => .ok (.success [])
  serialize := fun _ => ""
  parse := fun _ => .error .typeError
  mangumResult := .ok { body := "" }

/-- A concrete well-formed request envelope for witnesses and
counterexamples. -/
def baseMsg : ChatMessage where
  message := some "hello"
  model := none
  response_uuid := "r1"
  vars := []

/-- The streaming loop forwards exactly the non-empty deltas, in order:
it equals a filter of the mapped deltas. -/
theorem streamLoop_filter (chunks : List Chunk) :
    streamLoop chunks =
      ((chunks.map deltaOf).filter (fun s => s ≠ "")).map SessionOp.stream := by
  induction chunks with
  | nil => rfl
  | cons c cs ih =>
    by_cases h : deltaOf c = ""
    · simp [streamLoop, h, ih]
    · simp [streamLoop, h, ih]

/-- The batch loop visits every record, in order. -/
theorem sqsLoop_map (w : World) (rs : List JValue) :
    sqsLoop w rs = rs.map (fun r => .procRecord r (sqsRecordStep w r)) := by
  induction rs with
  | nil => rfl
  | cons r rest ih => simp [sqsLoop, ih]

/-- Claim C7: for every fragment sequence produced by the Completion
Source, the session receives exactly the non-empty fragments, each
appended once, in the exact order of arrival; zero-length fragments are
dropped and never forwarded as empty appends, and no reordering,
batching, or deduplication of non-empty fragments occurs. Formally: on
a successful stream, the session trace of `_stream_completion` is one
open, then precisely the order-preserving filter of the non-empty
deltas as appends, then one close. -/
theorem fragment_order (w : World) (messages : List (String × String)) (model : String)
    (data : ChatMessage) (chunks : List Chunk)
    (hkey : truthyOpt (pyOrOpt (w.getVar data.vars) w.envApiKey) = true)
    (hres : w.complete { model := model, messages := messages, stream := true } =
      .ok (.success chunks)) :
    (_stream_completion w messages model data).ops =
      [.begin] ++ ((chunks.map deltaOf).filter (fun s => s ≠ "")).map SessionOp.stream
        ++ [.close] := by
  unfold _stream_completion
  simp [hkey, hres, streamLoop_filter]

/-- Witness for `fragment_order`: a concrete stream with chunks
"Hi", "", None, " there" yields exactly append("Hi"), append(" there")
between open and close. -/
theorem fragment_order_witness :
    truthyOpt (pyOrOpt (baseWorld.getVar baseMsg.vars) baseWorld.envApiKey) = true ∧
    (_stream_completion
        { baseWorld with complete := fun _ => .ok (.success
            [{ content := some "Hi" }, { content := some "" },
             { content := none }, { content := some " there" }]) }
        [] "m" baseMsg).ops =
      [.begin, .stream "Hi", .stream " there", .close] := by
  refine ⟨by decide, ?_⟩
  have h := fragment_order
    { baseWorld with complete := fun _ => .ok (.success
        [{ content := some "Hi" }, { content := some "" },
         { content := none }, { content := some " there" }]) }
    [] "m" baseMsg
    [{ content := some "Hi" }, { content := some "" },
     { content := none }, { content := some " there" }]
    (by decide) rfl
  simpa using h

/-- Claim C2 (amended): every invocation of `process_message` produces
one of exactly three session traces — open, appends, close (success);
open, error, close (failure before the stream was opened); or, on a
mid-stream failure, open, appends, error, close followed by a second
open, error, close. In the third case the exchange sees two terminal
transitions (two closes on two sessions opened for the same message),
refuting the "never two" part of the original claim; in every case at
least one terminal transition occurs and every opened session is
terminated exactly once. -/
theorem session_lifecycle (w : World) (data : ChatMessage) :
    (∃ chunks, (process_message w data).ops =
        [.begin] ++ streamLoop chunks ++ [.close]) ∨
    (∃ e, (process_message w data).ops =
        [.begin, .error PROCESS_ERR (some e), .close]) ∨
    (∃ chunks e, (process_message w data).ops =
        [.begin] ++ streamLoop chunks ++
          [.error STREAM_ERR (some e), .close,
           .begin, .error PROCESS_ERR (some e), .close]) := by
  unfold process_message _stream_completion
  by_cases hk : truthyOpt (pyOrOpt (w.getVar data.vars) w.envApiKey) = false
  · simp [hk]
  · simp [hk]
    cases hres : w.complete
        { model := pyOrStr data.model w.defaultModel
          messages := [("system", SEO_SYSTEM_PROMPT), ("user", pyOrStr data.message "")]
          stream := true } with
    | error e => exact Or.inr (Or.inl ⟨e, rfl⟩)
    | ok oc =>
      cases oc with
      | success chunks => exact Or.inl ⟨chunks, rfl⟩
      | midFail chunks e => exact Or.inr (Or.inr ⟨chunks, e, by simp⟩)

/-- Counterexample to claim C2 as stated: with a credential available
and a Completion Source that fails immediately after the stream is
opened, one `process_message` invocation closes a session twice (error
then close on the streaming session, then a second session is opened
and again receives error then close) — two terminal transitions for one
exchange, not one. -/
theorem session_lifecycle_cex :
    closeCount (process_message
        { baseWorld with complete := fun _ => .ok (.midFail [] (.other "boom")) }
        baseMsg).ops = 2 ∧
    (process_message
        { baseWorld with complete := fun _ => .ok (.midFail [] (.other "boom")) }
        baseMsg).ops =
      [.begin, .error STREAM_ERR (some (.other "boom")), .close,
       .begin, .error PROCESS_ERR (some (.other "boom")), .close] := by
  constructor <;> decide

/-- Claim C9: on the inline (no queue configured) HTTP path,
`send_message` always returns the "ok" acknowledgment carrying the
caller's response_uuid, for every message and every behavior of the
Completion Source and its collaborators: `process_message` catches
every exception and returns normally, so the HTTP caller never
receives an error status from this endpoint. -/
theorem inline_always_ok (w : World) (data : ChatMessage) :
    send_message none w data =
      ([.runProcess (process_message w data)],
       { status := "ok", response_uuid := data.response_uuid }) := rfl

/-- Claim C4: with a truthy queue destination configured, an HTTP
`send_message` request publishes the serialized message exactly once
and returns the "queued" acknowledgment without invoking the Message
Processor; with no destination configured, `process_message` runs
inline and the response is the "ok" acknowledgment. Both responses
carry the caller-supplied `response_uuid` unmodified. -/
theorem offload_decider (u : String) (w : World) (data : ChatMessage) (hu : u ≠ "") :
    send_message (some u) w data =
      ([.publishSqs u (w.serialize data)],
       { status := "queued", response_uuid := data.response_uuid }) ∧
    send_message none w data =
      ([.runProcess (process_message w data)],
       { status := "ok", response_uuid := data.response_uuid }) := by
  constructor
  · simp [send_message, hu]
  · rfl

/-- Witness for `offload_decider`: a concrete queue URL and message. -/
theorem offload_decider_witness :
    "https://sqs.example/q" ≠ "" ∧
    send_message (some "https://sqs.example/q") baseWorld baseMsg =
      ([.publishSqs "https://sqs.example/q" (baseWorld.serialize baseMsg)],
       { status := "queued", response_uuid := baseMsg.response_uuid }) :=
  ⟨by decide, (offload_decider "https://sqs.example/q" baseWorld baseMsg (by decide)).1⟩

/-- Helper: when a credential resolves, `_stream_completion` issues
exactly the completion request built from its arguments. -/
theorem streamRun_request (w : World) (messages : List (String × String)) (model : String)
    (data : ChatMessage)
    (h : truthyOpt (pyOrOpt (w.getVar data.vars) w.envApiKey) = true) :
    (_stream_completion w messages model data).request =
      some { model := model, messages := messages, stream := true } := by
  unfold _stream_completion
  simp [h]
  cases w.complete { model := model, messages := messages, stream := true } with
  | error e => rfl
  | ok oc => cases oc <;> rfl

/-- Helper: `process_message` reports the request of its inner
`_stream_completion` run unchanged. -/
theorem process_message_request (w : World) (data : ChatMessage) :
    (process_message w data).request =
      (_stream_completion w
        [("system", SEO_SYSTEM_PROMPT), ("user", pyOrStr data.message "")]
        (pyOrStr data.model w.defaultModel) data).request := by
  unfold process_message
  cases h : (_stream_completion w
      [("system", SEO_SYSTEM_PROMPT), ("user", pyOrStr data.message "")]
      (pyOrStr data.model w.defaultModel) data).raised <;> simp [h]

/-- Claim C6: the completion credential prefers a non-empty value from
the per-request variables and falls back to the environment; when
variables supply nothing the environment value is used; and when the
resolved credential is falsy, no completion call is attempted
(`request = none`) and the exchange terminates through the session
error path — exactly open, error (with the descriptive ValueError as
cause), close, with no appends. -/
theorem credential_resolution (w : World) (data : ChatMessage) :
    (∀ v, w.getVar data.vars = some v → v ≠ "" →
      pyOrOpt (w.getVar data.vars) w.envApiKey = some v) ∧
    (w.getVar data.vars = none →
      pyOrOpt (w.getVar data.vars) w.envApiKey = w.envApiKey) ∧
    (truthyOpt (pyOrOpt (w.getVar data.vars) w.envApiKey) = false →
      process_message w data =
        { request := none
          ops := [.begin,
                  .error PROCESS_ERR (some (.valueError OPENAI_KEY_ERR)),
                  .close] }) := by
  refine ⟨?_, ?_, ?_⟩
  · intro v hv hne
    simp [pyOrOpt, hv, hne]
  · intro hv
    simp [pyOrOpt, hv]
  · intro h
    unfold process_message _stream_completion
    simp [h]

/-- Witness for `credential_resolution`: no key in the variables and no
key in the environment leads to the begin/error/close trace with no
completion request. -/
theorem credential_resolution_witness :
    truthyOpt (pyOrOpt (({ baseWorld with envApiKey := none } : World).getVar baseMsg.vars)
        ({ baseWorld with envApiKey := none } : World).envApiKey) = false ∧
    process_message { baseWorld with envApiKey := none } baseMsg =
      { request := none
        ops := [.begin,
                .error PROCESS_ERR (some (.valueError OPENAI_KEY_ERR)),
                .close] } :=
  ⟨by decide,
   (credential_resolution { baseWorld with envApiKey := none } baseMsg).2.2 (by decide)⟩

/-- Claim C10: a message whose text field is None is processed exactly
like one whose text is the empty string — `process_message` proceeds
normally, and (when a credential is available) the completion request
carries the persona system prompt with an empty user turn. -/
theorem empty_message_proceeds (w : World) (mdl : Option String) (ru : String)
    (vs : List (String × String)) :
    process_message w { message := none, model := mdl, response_uuid := ru, vars := vs } =
      process_message w { message := some "", model := mdl, response_uuid := ru, vars := vs } ∧
    (truthyOpt (pyOrOpt (w.getVar vs) w.envApiKey) = true →
      (process_message w
          { message := none, model := mdl, response_uuid := ru, vars := vs }).request =
        some { model := pyOrStr mdl w.defaultModel
               messages := [("system", SEO_SYSTEM_PROMPT), ("user", "")]
               stream := true }) := by
  constructor
  · rfl
  · intro h
    rw [process_message_request]
    exact streamRun_request w _ _ _ h

/-- Witness for `empty_message_proceeds`: with a key in the environment
and no model override, a None message yields the request with the
default model, the persona prompt and an empty user turn. -/
theorem empty_message_proceeds_witness :
    truthyOpt (pyOrOpt (baseWorld.getVar []) baseWorld.envApiKey) = true ∧
    (process_message baseWorld
        { message := none, model := none, response_uuid := "r1", vars := [] }).request =
      some { model := pyOrStr none baseWorld.defaultModel
             messages := [("system", SEO_SYSTEM_PROMPT), ("user", "")]
             stream := true } :=
  ⟨by decide, (empty_message_proceeds baseWorld none "r1" []).2 (by decide)⟩

/-- Claim C5 (amended): on any failure raised while requesting or
consuming the fragment sequence, `_stream_completion` marks its session
Errored (with a human-readable message and the underlying cause) and
closes it, then re-raises — but only as far as `process_message`, which
catches the failure, opens a second session, marks it Errored and
closes it, and returns normally. The failure is not re-signaled to the
batch-level caller: a queue record whose message parses successfully
always yields no caught exception in the batch loop, so batch-level
isolation never observes per-record processing failures. -/
theorem error_not_resignaled (w : World) (data : ChatMessage) (chunks : List Chunk)
    (e : PyErr)
    (hc : ∀ req, w.complete req = .ok (.midFail chunks e))
    (hkey : truthyOpt (pyOrOpt (w.getVar data.vars) w.envApiKey) = true) :
    (process_message w data).ops =
      [.begin] ++ streamLoop chunks ++
        [.error STREAM_ERR (some e), .close,
         .begin, .error PROCESS_ERR (some e), .close] ∧
    (∀ record body d, pyGetItemStr record "body" = .ok body → w.parse body = .ok d →
      sqsRecordStep w record = none) := by
  constructor
  · unfold process_message _stream_completion
    simp [hkey, hc]
  · intro record body d h1 h2
    unfold sqsRecordStep
    simp [h1, h2]

/-- Witness for `error_not_resignaled`: a provider that fails as soon
as the stream opens produces the double error/close trace, and a
parseable record in the batch loop reports no caught exception. -/
theorem error_not_resignaled_witness :
    (process_message
        { baseWorld with
            complete := fun _ => .ok (.midFail [] (.other "timeout")),
            parse := fun _ => .ok baseMsg }
        baseMsg).ops =
      [.begin] ++ streamLoop [] ++
        [.error STREAM_ERR (some (.other "timeout")), .close,
         .begin, .error PROCESS_ERR (some (.other "timeout")), .close] ∧
    sqsRecordStep
        { baseWorld with
            complete := fun _ => .ok (.midFail [] (.other "timeout")),
            parse := fun _ => .ok baseMsg }
        (.obj [("body", .str "x")]) = none := by
  have h := error_not_resignaled
    { baseWorld with
        complete := fun _ => .ok (.midFail [] (.other "timeout")),
        parse := fun _ => .ok baseMsg }
    baseMsg [] (.other "timeout") (fun _ => rfl) (by decide)
  exact ⟨h.1, h.2 (.obj [("body", .str "x")]) (.str "x") baseMsg rfl rfl⟩

/-- Counterexample to claim C5 as stated: a completion request that
fails outright is errored and closed on a session, but the failure is
swallowed inside `process_message`: the batch loop records no caught
exception for the record (`none`), so the batch-level caller cannot
observe the per-record failure the claim says is re-signaled to it. -/
theorem error_resignal_cex :
    sqsRecordStep
        { baseWorld with
            complete := fun _ => .error (.other "provider failure"),
            parse := fun _ => .ok baseMsg }
        (.obj [("body", .str "x")]) = none ∧
    (process_message
        { baseWorld with
            complete := fun _ => .error (.other "provider failure"),
            parse := fun _ => .ok baseMsg }
        baseMsg).ops =
      [.begin, .error PROCESS_ERR (some (.other "provider failure")), .close] := by
  constructor <;> decide

/-- Helper: the two branches of the cron/HTTP tail of `handler`. -/
theorem cronOrHttp_cases (w : World) (event : List (String × JValue)) :
    (isScheduled event = true → cronOrHttp w event = ([], .ok .statusCode200)) ∧
    (isScheduled event = false →
      cronOrHttp w event =
        (match w.mangumResult with
         | .ok r => ([.callMangum], .ok (.httpResp r))
         | .error e => ([.callMangum], .error e))) := by
  unfold cronOrHttp isScheduled
  constructor <;> intro h <;> simp [h]

/-- Helper: on envelopes whose "Records" entry is well-shaped, `handler`
either takes the SQS batch path (exactly when the spec-side Queued-Batch
condition holds) or falls through to the cron/HTTP tail. -/
theorem handler_eq (w : World) (event : List (String × JValue))
    (hgood : recordsOk (jLookup event "Records") = true) :
    (isSqsBatch event = true ∧
      ∃ records, jLookup event "Records" = some (.arr records) ∧
        handler w event = (sqsLoop w records, .ok .statusCode200)) ∨
    (isSqsBatch event = false ∧ handler w event = cronOrHttp w event) := by
  cases hrec : jLookup event "Records" with
  | none =>
    right
    constructor
    · simp [isSqsBatch, hrec]
    · simp [handler, hrec]
  | some recs =>
    rw [hrec] at hgood
    cases recs with
    | null => simp [recordsOk] at hgood
    | bool b => simp [recordsOk] at hgood
    | num n => simp [recordsOk] at hgood
    | str s =>
      have hs : s = "" := by simpa [recordsOk] using hgood
      subst hs
      right
      constructor
      · simp [isSqsBatch, hrec]
      · simp [handler, hrec, pyLen]
    | obj fs =>
      have hs : fs = [] := by simpa [recordsOk, List.isEmpty_iff] using hgood
      subst hs
      right
      constructor
      · simp [isSqsBatch, hrec]
      · simp [handler, hrec, pyLen]
    | arr xs =>
      cases xs with
      | nil =>
        right
        constructor
        · simp [isSqsBatch, hrec]
        · simp [handler, hrec, pyLen]
      | cons x rest =>
        cases x with
        | null => simp [recordsOk] at hgood
        | bool b => simp [recordsOk] at hgood
        | num n => simp [recordsOk] at hgood
        | str s => simp [recordsOk] at hgood
        | arr ys => simp [recordsOk] at hgood
        | obj fs =>
          by_cases hb : isStrEq (jLookup fs "eventSource") "aws:sqs"
          · left
            refine ⟨by simp [isSqsBatch, hrec, hb], .obj fs :: rest, rfl, ?_⟩
            simp [handler, hrec, pyLen, pyIndexZero, pyGet, jIter, hb]
          · right
            constructor
            · simp [isSqsBatch, hrec, hb]
            · simp [handler, hrec, pyLen, pyIndexZero, pyGet,
                    Bool.not_eq_true _ ▸ hb]

/-- Claim C1 (amended): for every envelope whose records entry, when
present, is a list that is empty or whose first element is a dict (the
envelopes the classification code can inspect without raising), the
handler takes exactly one of the three paths, in priority order: a
non-empty records collection whose first record is tagged "aws:sqs" is
handled as Queued-Batch; otherwise a source tag "aws.events" is handled
as Scheduled, returning the fixed acknowledgment immediately with no
processing; otherwise the event is forwarded to the HTTP layer. On an
envelope outside this shape (see the counterexample) the classification
code raises instead of taking any path, which is what forces the
well-shapedness restriction. -/
theorem classification_priority (w : World) (event : List (String × JValue))
    (hgood : recordsOk (jLookup event "Records") = true) :
    (isSqsBatch event = true →
      ∃ records, jLookup event "Records" = some (.arr records) ∧
        handler w event = (sqsLoop w records, .ok .statusCode200)) ∧
    (isSqsBatch event = false → isScheduled event = true →
      handler w event = ([], .ok .statusCode200)) ∧
    (isSqsBatch event = false → isScheduled event = false →
      handler w event =
        (match w.mangumResult with
         | .ok r => ([.callMangum], .ok (.httpResp r))
         | .error e => ([.callMangum], .error e))) := by
  rcases handler_eq w event hgood with ⟨hs, records, hrec, hh⟩ | ⟨hs, hh⟩
  · refine ⟨fun _ => ⟨records, hrec, hh⟩, fun h _ => ?_, fun h _ => ?_⟩ <;>
      · rw [hs] at h; cases h
  · refine ⟨fun h => ?_, fun _ hsch => ?_, fun _ hns => ?_⟩
    · rw [hs] at h; cases h
    · rw [hh]; exact (cronOrHttp_cases w event).1 hsch
    · rw [hh]; exact (cronOrHttp_cases w event).2 hns

/-- Witness for `classification_priority`: a pure cron envelope (no
records, source "aws.events") takes the Scheduled path and returns the
fixed acknowledgment with no processing effects. -/
theorem classification_priority_witness :
    recordsOk (jLookup [("source", JValue.str "aws.events")] "Records") = true ∧
    isSqsBatch [("source", JValue.str "aws.events")] = false ∧
    isScheduled [("source", JValue.str "aws.events")] = true ∧
    handler baseWorld [("source", JValue.str "aws.events")] =
      ([], .ok .statusCode200) :=
  ⟨by decide, by decide, by decide,
   (classification_priority baseWorld [("source", JValue.str "aws.events")]
      (by decide)).2.1 (by decide) (by decide)⟩

/-- Counterexample to claim C1 as stated: the envelope with a non-empty
records list whose first record is the number 5 carries no queue-origin
tag and no scheduled-source tag, so by the claim it should be handled
as HTTP; instead `first.get("eventSource")` raises `AttributeError`,
the exception propagates, and none of the three paths is taken. -/
theorem classification_cex :
    handler baseWorld [("Records", JValue.arr [JValue.num 5])] =
      ([], .error .attributeError) := rfl

/-- Claim C3: for every envelope taking the Queued-Batch path, the
handler visits every record of the batch in order — each failure being
caught per record — and returns the fixed success acknowledgment after
iterating all records, for every possible per-record outcome (the
world's parse and completion oracles are universally quantified, so
this covers deserialization failures and processing failures alike). -/
theorem sqs_batch_isolation (w : World) (event : List (String × JValue))
    (records : List JValue)
    (hrec : jLookup event "Records" = some (.arr records))
    (hsqs : isSqsBatch event = true) :
    handler w event =
      (records.map (fun r => .procRecord r (sqsRecordStep w r)),
       .ok .statusCode200) := by
  cases records with
  | nil => simp [isSqsBatch, hrec] at hsqs
  | cons x rest =>
    cases x with
    | null => simp [isSqsBatch, hrec] at hsqs
    | bool b => simp [isSqsBatch, hrec] at hsqs
    | num n => simp [isSqsBatch, hrec] at hsqs
    | str s => simp [isSqsBatch, hrec] at hsqs
    | arr ys => simp [isSqsBatch, hrec] at hsqs
    | obj fs =>
      have hb : isStrEq (jLookup fs "eventSource") "aws:sqs" = true := by
        simpa [isSqsBatch, hrec] using hsqs
      simp [handler, hrec, pyLen, pyIndexZero, pyGet, jIter, hb, sqsLoop_map]

/-- Witness for `sqs_batch_isolation`: a two-record batch in which the
first record fails deserialization (`TypeError` from the parse oracle)
and the second lacks a "body" key (`KeyError`); both records are
visited, both failures are caught, and the handler still returns the
fixed success acknowledgment. -/
theorem sqs_batch_isolation_witness :
    jLookup
        [("Records", JValue.arr
          [JValue.obj [("eventSource", JValue.str "aws:sqs"), ("body", JValue.str "bad")],
           JValue.obj [("eventSource", JValue.str "aws:sqs")]])] "Records" =
      some (JValue.arr
        [JValue.obj [("eventSource", JValue.str "aws:sqs"), ("body", JValue.str "bad")],
         JValue.obj [("eventSource", JValue.str "aws:sqs")]]) ∧
    isSqsBatch
        [("Records", JValue.arr
          [JValue.obj [("eventSource", JValue.str "aws:sqs"), ("body", JValue.str "bad")],
           JValue.obj [("eventSource", JValue.str "aws:sqs")]])] = true ∧
    handler baseWorld
        [("Records", JValue.arr
          [JValue.obj [("eventSource", JValue.str "aws:sqs"), ("body", JValue.str "bad")],
           JValue.obj [("eventSource", JValue.str "aws:sqs")]])] =
      ([.procRecord
          (JValue.obj [("eventSource", JValue.str "aws:sqs"), ("body", JValue.str "bad")])
          (some .typeError),
        .procRecord (JValue.obj [("eventSource", JValue.str "aws:sqs")])
          (some .keyError)],
       .ok .statusCode200) := by
  refine ⟨rfl, by decide, ?_⟩
  have h := sqs_batch_isolation baseWorld
    [("Records", JValue.arr
      [JValue.obj [("eventSource", JValue.str "aws:sqs"), ("body", JValue.str "bad")],
       JValue.obj [("eventSource", JValue.str "aws:sqs")]])]
    [JValue.obj [("eventSource", JValue.str "aws:sqs"), ("body", JValue.str "bad")],
     JValue.obj [("eventSource", JValue.str "aws:sqs")]]
    rfl (by decide)
  exact h

/-- Claim C8 (amended): the handler contains no exception handling of
its own around classification. On envelopes whose records entry is
well-shaped it returns either the fixed acknowledgment or exactly what
the HTTP layer produced (including that layer's exceptions, unconverted);
on a malformed records entry the classification code itself raises and
the exception propagates past the handler boundary instead of being
converted into a generic failure acknowledgment (see the
counterexample). -/
theorem router_no_catch (w : World) (event : List (String × JValue))
    (hgood : recordsOk (jLookup event "Records") = true) :
    (handler w event).2 = .ok .statusCode200 ∨
    (handler w event).2 = Except.map HandlerResult.httpResp w.mangumResult := by
  rcases handler_eq w event hgood with ⟨_, _, _, hh⟩ | ⟨_, hh⟩
  · left; rw [hh]
  · rw [hh]
    unfold cronOrHttp
    by_cases hs : isStrEq (jLookup event "source") "aws.events"
    · left; simp [hs]
    · right
      simp only [hs, if_false, Bool.false_eq_true]
      cases w.mangumResult <;> simp [Except.map]

/-- Witness for `router_no_catch`: the empty envelope is well-shaped,
is neither a batch nor a cron trigger, and yields exactly the HTTP
layer's response. -/
theorem router_no_catch_witness :
    recordsOk (jLookup ([] : List (String × JValue)) "Records") = true ∧
    ((handler baseWorld []).2 = .ok .statusCode200 ∨
     (handler baseWorld []).2 = Except.map HandlerResult.httpResp baseWorld.mangumResult) :=
  ⟨by decide, router_no_catch baseWorld [] (by decide)⟩

/-- Counterexample to claim C8 as stated: on the envelope whose records
entry is the string "x", classification evaluates `"x".get(...)` and
raises `AttributeError`; the handler propagates the exception rather
than converting it into a generic failure acknowledgment, so the
surrounding runtime does not receive a structured response. -/
theorem router_uncaught_cex :
    handler baseWorld [("Records", JValue.str "x")] =
      ([], .error .attributeError) := rfl

end Agent

